import Mathlib

/-!
# Verification of the SLA Uptime Monitoring System

Shallow embedding of `src/monitoring/sla/uptime_monitor.py` (class
`UptimeMonitor`).  Python floats are modelled as rationals (`ℚ`), Python
`datetime` timestamps as rationals, the epoch seconds `int(time.time())`
used in identifiers as naturals, and Python dictionaries keyed by monitor
name as association lists.  Fallible collaborators (alert transports) are
modelled with `Except`.
-/

namespace UptimeMonitor

/-- `MonitorStatus` enumeration of the source (`up`, `down`, `degraded`,
`maintenance`). -/
inductive MonitorStatus where
  | up
  | down
  | degraded
  | maintenance
  deriving DecidableEq, Repr

/-- `AlertSeverity` enumeration of the source. -/
inductive AlertSeverity where
  | info
  | warning
  | critical
  | emergency
  deriving DecidableEq, Repr

/-- `SLAThreshold` dataclass of the source. -/
structure SLAThreshold where
  name : String
  target_value : ℚ
  measurement_unit : String
  measurement_period : String
  violation_threshold : ℚ
  compensation_rate : ℚ
  deriving DecidableEq, Repr

/-- `MonitorResult` dataclass of the source.  `response_time` and
`status_code` are `Optional` in the source; `additional_metrics` is a
string-keyed float dictionary. -/
structure MonitorResult where
  timestamp : ℚ
  status : MonitorStatus
  response_time : Option ℚ
  status_code : Option ℤ
  error_message : Option String
  additional_metrics : List (String × ℚ)
  deriving DecidableEq, Repr

/-- The default `uptime` SLA threshold built in `_load_sla_thresholds`. -/
def defaultUptimeThreshold : SLAThreshold :=
  { name := "Service Uptime"
    target_value := 999 / 10
    measurement_unit := "percentage"
    measurement_period := "monthly"
    violation_threshold := 998 / 10
    compensation_rate := 10 }

/-- The default `api_response_time` SLA threshold built in
`_load_sla_thresholds`. -/
def defaultResponseTimeThreshold : SLAThreshold :=
  { name := "API Response Time"
    target_value := 200
    measurement_unit := "milliseconds"
    measurement_period := "daily"
    violation_threshold := 500
    compensation_rate := 5 }

/-! ## Probe classification (`_check_monitor`)

The network interaction of `_check_monitor` is abstracted into a
`ProbeOutcome`: either the server answered with a status code after a
measured latency, or the request timed out (`asyncio.TimeoutError`), or some
other transport exception was raised.  The classification of that outcome
into a `MonitorResult` is translated verbatim from the source.  The
GET-only harmonic-metrics side request is further network I/O and is
modelled as yielding the empty metric map. -/

/-- HTTP method of a monitor configuration.  The source dispatches on the
strings `GET` and `POST`; any other method returns no result at all and is
unreachable from the documented configuration surface. -/
inductive HttpMethod where
  | get
  | post
  deriving DecidableEq, Repr

/-- Abstract outcome of the network probe issued by `_check_monitor`. -/
inductive ProbeOutcome where
  | response (code : ℤ) (latency : ℚ)
  | timeout
  | transportError (msg : String)
  deriving DecidableEq, Repr

/-- The error text recorded on an `asyncio.TimeoutError`. -/
def requestTimeoutMessage : String := "Request timeout"

/-- `_check_monitor`: classify a probe outcome into a `MonitorResult`,
given the configured `expected_status` and `expected_response_time`.
`now` is the wall-clock timestamp recorded in the result. -/
def checkMonitor (method : HttpMethod) (expected_status : ℤ)
    (expected_response_time : ℚ) (now : ℚ) (outcome : ProbeOutcome) :
    MonitorResult :=
  match outcome with
  | .response code latency =>
    match method with
    | .get =>
      let status :=
        if code = expected_status ∧ latency ≤ expected_response_time then
          MonitorStatus.up
        else if code = expected_status then MonitorStatus.degraded
        else MonitorStatus.down
      { timestamp := now, status := status, response_time := some latency
        status_code := some code, error_message := none
        additional_metrics := [] }
    | .post =>
      let status :=
        if code = expected_status then MonitorStatus.up else MonitorStatus.down
      { timestamp := now, status := status, response_time := some latency
        status_code := some code, error_message := none
        additional_metrics := [] }
  | .timeout =>
    { timestamp := now, status := MonitorStatus.down, response_time := none
      status_code := none, error_message := some requestTimeoutMessage
      additional_metrics := [] }
  | .transportError msg =>
    { timestamp := now, status := MonitorStatus.down, response_time := none
      status_code := none, error_message := some msg
      additional_metrics := [] }

/-! ## Incident tracking (`_process_monitor_result`, `_handle_incident`,
`_resolve_incident`)

The source stores the open incident of a monitor as a dictionary entry in
`self.current_incidents`; here the per-monitor entry is an `Option Incident`.
The incident identifier is the string `f"INC_{int(time.time())}_{name}"`;
since the decimal digit block and the monitor name are separated by an
underscore and the digit block contains none, that formatting is an
injective encoding of the pair `(int(time.time()), name)`, which is what we
store. -/

/-- The `.value` string of a `MonitorStatus`, as used in alert texts. -/
def MonitorStatus.value : MonitorStatus → String
  | .up => "up"
  | .down => "down"
  | .degraded => "degraded"
  | .maintenance => "maintenance"

/-- An entry of `self.current_incidents` (and, once resolved, the archived
incident record). -/
structure Incident where
  incident_id : ℕ × String
  monitor_name : String
  start_time : ℚ
  status : MonitorStatus
  error_message : Option String
  alert_sent : Bool
  deriving DecidableEq, Repr

/-- An alert event as assembled by `_send_alert`'s callers: severity,
title/message text, and the correlation identifier (an incident id or a
violation id, both encoded as their underlying pairs). -/
structure AlertEvent where
  severity : AlertSeverity
  title : String
  message : String
  deriving DecidableEq, Repr

/-- `_handle_incident`: on a DOWN/DEGRADED result, open a new incident if
none is open (emitting one CRITICAL/WARNING alert), otherwise leave the
open incident untouched.  `now` is `int(time.time())` at creation. -/
def handleIncident (cur : Option Incident) (monitor_name : String)
    (r : MonitorResult) (now : ℕ) : Option Incident × List AlertEvent :=
  match cur with
  | some inc => (some inc, [])
  | none =>
    let inc : Incident :=
      { incident_id := (now, monitor_name)
        monitor_name := monitor_name
        start_time := r.timestamp
        status := r.status
        error_message := r.error_message
        alert_sent := true }
    let sev :=
      if r.status = MonitorStatus.down then AlertSeverity.critical
      else AlertSeverity.warning
    (some inc,
      [{ severity := sev
         title := "Service " ++ r.status.value ++ ": " ++ monitor_name
         message := "Monitor " ++ monitor_name ++ " is " ++ r.status.value }])

/-- `_resolve_incident`: if an incident is open, emit an INFO recovery
alert and drop the incident from the current-incidents map. -/
def resolveIncident (cur : Option Incident) (monitor_name : String)
    (r : MonitorResult) : Option Incident × List AlertEvent :=
  match cur with
  | none => (none, [])
  | some inc =>
    (none,
      [{ severity := AlertSeverity.info
         title := "Service RECOVERED: " ++ monitor_name
         message := "Monitor " ++ monitor_name ++ " has recovered. Downtime: "
           ++ toString (r.timestamp - inc.start_time) }])

/-- The incident portion of `_process_monitor_result`: a DOWN or DEGRADED
result goes to `_handle_incident`; any other status goes to the resolution
branch (which only acts when an incident is open). -/
def incidentStep (cur : Option Incident) (monitor_name : String)
    (r : MonitorResult) (now : ℕ) : Option Incident × List AlertEvent :=
  if r.status = MonitorStatus.down ∨ r.status = MonitorStatus.degraded then
    handleIncident cur monitor_name r now
  else
    resolveIncident cur monitor_name r

/-- Processing a whole sequence of (result, clock) pairs through the
incident state machine, keeping only the final per-monitor state. -/
def incidentFold (cur : Option Incident) (monitor_name : String)
    (rs : List (MonitorResult × ℕ)) : Option Incident :=
  rs.foldl (fun s p => (incidentStep s monitor_name p.1 p.2).1) cur

/-! ## Windowed uptime (`_calculate_uptime_percentage`) -/

/-- The stored per-monitor result history `self.monitor_results`, as an
association list keyed by monitor name. -/
def ResultsMap := List (String × List MonitorResult)

/-- Start of a trailing evaluation window: `now` minus the period length in
seconds (one hour, one day, thirty days; unknown periods fall back to one
hour), mirroring the `timedelta` arithmetic of the source. -/
def periodStart (now : ℚ) (period : String) : ℚ :=
  if period = "hourly" then now - 3600
  else if period = "daily" then now - 86400
  else if period = "monthly" then now - 2592000
  else now - 3600

/-- The `monthly` period tag, the one `_check_sla_violations` passes to the
uptime computation. -/
def monthlyPeriod : String := "monthly"

/-- `_calculate_uptime_percentage`: 100 when the monitor has no recorded
results; otherwise restrict to results with `timestamp >= start_time`,
yield 100 on an empty window, else `up_count / total_count * 100`. -/
def calculateUptimePercentage (results : ResultsMap) (monitor_name : String)
    (period : String) (now : ℚ) : ℚ :=
  match results.lookup monitor_name with
  | none => 100
  | some rs =>
    let windowed := rs.filter (fun r => periodStart now period ≤ r.timestamp)
    if windowed.isEmpty then 100
    else
      ((windowed.countP (fun r => r.status = MonitorStatus.up) : ℚ) /
        (windowed.length : ℚ)) * 100

/-! ## SLA violation checks (`_check_sla_violations`) -/

/-- An entry of the append-only `self.sla_violations` log.  As for
incidents, the identifier string `f"SLA_{int(time.time())}_{name}_{kind}"`
is modelled by the tuple it encodes. -/
structure SLAViolation where
  violation_id : ℕ × String × String
  monitor_name : String
  sla_type : String
  threshold : ℚ
  actual_value : ℚ
  timestamp : ℚ
  compensation_rate : ℚ
  deriving DecidableEq, Repr

/-- The uptime block of `_check_sla_violations`: it fires only on a DOWN
result whose trailing-monthly uptime is below the `uptime` violation
threshold.  `now` is `int(time.time())` used in violation identifiers,
`nowTime` the clock used for the trailing window. -/
def uptimeCheck (uptimeTh : SLAThreshold) (results : ResultsMap)
    (monitor_name : String) (r : MonitorResult) (now : ℕ) (nowTime : ℚ) :
    List SLAViolation × List AlertEvent :=
  if r.status = MonitorStatus.down then
      let pct := calculateUptimePercentage results monitor_name monthlyPeriod nowTime
      if pct < uptimeTh.violation_threshold then
        ([{ violation_id := (now, monitor_name, "uptime")
            monitor_name := monitor_name
            sla_type := "uptime"
            threshold := uptimeTh.target_value
            actual_value := pct
            timestamp := r.timestamp
            compensation_rate := uptimeTh.compensation_rate }],
         [{ severity := AlertSeverity.emergency
            title := "SLA VIOLATION: Uptime below target"
            message := "Uptime for " ++ monitor_name }])
      else ([], [])
  else ([], [])

/-- The response-time block of `_check_sla_violations`, guarded by the
truthiness test `if result.response_time:`. -/
def latencyCheck (respTh : SLAThreshold) (monitor_name : String)
    (r : MonitorResult) (now : ℕ) : List SLAViolation × List AlertEvent :=
  match r.response_time with
    | none => ([], [])
    | some t =>
      if t = 0 then ([], [])
      else if respTh.violation_threshold < t then
        ([{ violation_id := (now, monitor_name, "response_time")
            monitor_name := monitor_name
            sla_type := "response_time"
            threshold := respTh.target_value
            actual_value := t
            timestamp := r.timestamp
            compensation_rate := respTh.compensation_rate }],
         [{ severity := AlertSeverity.warning
            title := "SLA VIOLATION: Response time above target"
            message := "Response time for " ++ monitor_name }])
      else ([], [])

/-- `_check_sla_violations`: the uptime block followed by the
response-time block; the emitted violations and alerts of both blocks, in
order. -/
def checkSLAViolations (uptimeTh respTh : SLAThreshold) (results : ResultsMap)
    (monitor_name : String) (r : MonitorResult) (now : ℕ) (nowTime : ℚ) :
    List SLAViolation × List AlertEvent :=
  let uptimePart := uptimeCheck uptimeTh results monitor_name r now nowTime
  let latencyPart := latencyCheck respTh monitor_name r now
  (uptimePart.1 ++ latencyPart.1, uptimePart.2 ++ latencyPart.2)

/-! ## Statistics (`_update_statistics`) -/

/-- An entry of `self.uptime_stats`. -/
structure UptimeStats where
  total_checks : ℕ
  successful_checks : ℕ
  failed_checks : ℕ
  last_check : Option ℚ
  deriving DecidableEq, Repr

/-- An entry of `self.performance_stats`.  `min_response_time` starts as
`float('inf')`, modelled by `none` (the identity of running minimum). -/
structure PerformanceStats where
  response_times : List ℚ
  avg_response_time : ℚ
  min_response_time : Option ℚ
  max_response_time : ℚ
  deriving DecidableEq, Repr

/-- Fresh `uptime_stats` entry created on first sight of a monitor. -/
def initUptimeStats : UptimeStats :=
  { total_checks := 0, successful_checks := 0, failed_checks := 0
    last_check := none }

/-- Fresh `performance_stats` entry created on first sight of a monitor. -/
def initPerformanceStats : PerformanceStats :=
  { response_times := [], avg_response_time := 0, min_response_time := none
    max_response_time := 0 }

/-- `_update_statistics` for one monitor: bump the check counters (UP is a
success, every other status a failure), and — when `response_time` is
truthy (neither `None` nor `0.0`) — append it to the sample list, keep
only the last 1000 samples, recompute the average from the retained
samples and fold the new sample into the running min/max. -/
def updateStatistics (stats : UptimeStats × PerformanceStats)
    (r : MonitorResult) : UptimeStats × PerformanceStats :=
  let us := stats.1
  let ps := stats.2
  let us' : UptimeStats :=
    { total_checks := us.total_checks + 1
      successful_checks :=
        us.successful_checks + (if r.status = MonitorStatus.up then 1 else 0)
      failed_checks :=
        us.failed_checks + (if r.status = MonitorStatus.up then 0 else 1)
      last_check := some r.timestamp }
  let ps' :=
    match r.response_time with
    | none => ps
    | some t =>
      if t = 0 then ps
      else
        let appended := ps.response_times ++ [t]
        let kept :=
          if 1000 < appended.length then
            appended.drop (appended.length - 1000)
          else appended
        { response_times := kept
          avg_response_time := kept.sum / (kept.length : ℚ)
          min_response_time :=
            some (match ps.min_response_time with
                  | none => t
                  | some m => min m t)
          max_response_time := max ps.max_response_time t }
  (us', ps')

/-- Statistics after a whole sequence of results for one monitor, starting
from the freshly initialised entries. -/
def statsFold (rs : List MonitorResult) : UptimeStats × PerformanceStats :=
  rs.foldl updateStatistics (initUptimeStats, initPerformanceStats)

/-! ## Alert dispatch (`_send_alert`) -/

/-- An entry of `self.alert_channels`: its `type` tag and the transport's
behaviour on an alert, modelled as `Except` (a raised exception becomes
`.error`). -/
structure AlertChannel where
  ctype : String
  send : AlertEvent → Except String Unit

/-- What happened to one channel during a dispatch: the transport was
invoked and succeeded, it was invoked and raised (the exception is caught
and logged by `_send_alert`), or the channel's `type` matched no branch of
the dispatch switch and nothing was invoked. -/
inductive DispatchOutcome where
  | delivered
  | failed (msg : String)
  | skipped
  deriving DecidableEq, Repr

/-- The body of `_send_alert`'s per-channel loop iteration: the `type`
switch followed by the enclosing `try`/`except`. -/
def dispatchChannel (a : AlertEvent) (ch : AlertChannel) : DispatchOutcome :=
  if ch.ctype = "email" ∨ ch.ctype = "slack" ∨ ch.ctype = "webhook" ∨
      ch.ctype = "pagerduty" then
    match ch.send a with
    | .ok _ => .delivered
    | .error e => .failed e
  else .skipped

/-- `_send_alert`: iterate over the configured channels in order,
recording each channel's outcome; a failure is caught inside the loop
body, so the loop always runs to completion and the call returns. -/
def sendAlert (channels : List AlertChannel) (a : AlertEvent) :
    List DispatchOutcome :=
  channels.foldl (fun acc ch => acc ++ [dispatchChannel a ch]) []

/-! ## Report generation (`generate_sla_report`) -/

/-- The per-monitor block of the report.  The three latency fields are
only present when the monitor has a `performance_stats` entry, hence the
`Option`s (set together). -/
structure MonitorReport where
  uptime_percentage : ℚ
  sla_target : ℚ
  sla_compliant : Bool
  total_checks : ℕ
  failed_checks : ℕ
  avg_response_time : Option ℚ
  response_time_sla_target : Option ℚ
  response_time_compliant : Option Bool
  deriving DecidableEq, Repr

/-- The report returned by `generate_sla_report`. -/
structure SLAReport where
  report_period : String
  monitors : List (String × MonitorReport)
  sla_violations : List SLAViolation
  overall_compliant : Bool
  violation_count : ℕ
  compensation_owed : ℚ
  deriving DecidableEq, Repr

/-- `generate_sla_report`: per monitor, the windowed uptime percentage,
compliance against the `uptime` SLA target, counters, and — when present —
average latency and its compliance; then the violations of the period,
overall compliance as `all(m['sla_compliant'])`, and compensation as the
sum of the listed violations' compensation rates. -/
def generateSLAReport (monitors : List String) (results : ResultsMap)
    (uptimeTh respTh : SLAThreshold)
    (uptime_stats : List (String × UptimeStats))
    (performance_stats : List (String × PerformanceStats))
    (sla_violations : List SLAViolation)
    (period : String) (now : ℚ) : SLAReport :=
  let monitorReports := monitors.map (fun name =>
    let pct := calculateUptimePercentage results name period now
    let us := uptime_stats.lookup name
    let base : MonitorReport :=
      { uptime_percentage := pct
        sla_target := uptimeTh.target_value
        sla_compliant := decide (uptimeTh.target_value ≤ pct)
        total_checks := (us.map (fun s => s.total_checks)).getD 0
        failed_checks := (us.map (fun s => s.failed_checks)).getD 0
        avg_response_time := none
        response_time_sla_target := none
        response_time_compliant := none }
    let rep :=
      match performance_stats.lookup name with
      | none => base
      | some ps =>
        { base with
          avg_response_time := some ps.avg_response_time
          response_time_sla_target := some respTh.target_value
          response_time_compliant :=
            some (decide (ps.avg_response_time ≤ respTh.target_value)) }
    (name, rep))
  let period_start := now - (if period = "monthly" then 2592000 else 86400)
  let violations := sla_violations.filter (fun v => period_start ≤ v.timestamp)
  { report_period := period
    monitors := monitorReports
    sla_violations := violations
    overall_compliant := monitorReports.all (fun p => p.2.sla_compliant)
    violation_count := violations.length
    compensation_owed := (violations.map (fun v => v.compensation_rate)).sum }

/-! ## Concrete instances used in witnesses and counterexamples -/

/-- Monitor name used in the concrete scenarios. -/
def apiName : String := "api"

/-- A healthy result: UP, 150 ms latency, code 200. -/
def upResult : MonitorResult :=
  { timestamp := 20, status := MonitorStatus.up, response_time := some 150
    status_code := some 200, error_message := none, additional_metrics := [] }

/-- A failing result: DOWN, no latency recorded. -/
def downResult : MonitorResult :=
  { timestamp := 10, status := MonitorStatus.down, response_time := none
    status_code := some 500, error_message := none, additional_metrics := [] }

/-- A second, later failing result, used for flapping scenarios. -/
def downResult2 : MonitorResult :=
  { timestamp := 30, status := MonitorStatus.down, response_time := none
    status_code := some 500, error_message := none, additional_metrics := [] }

/-- A result in MAINTENANCE status. -/
def maintenanceResult : MonitorResult :=
  { timestamp := 0, status := MonitorStatus.maintenance, response_time := none
    status_code := none, error_message := none, additional_metrics := [] }

/-- A result history holding one UP result for the `api` monitor. -/
def exResultsMap : ResultsMap := [(apiName, [upResult])]

/-! ## C2 — probe classification -/

/-- The GET-path status of `_check_monitor`, as the if-chain of the
source. -/
theorem checkMonitor_get_status (E : ℤ) (L now t : ℚ) (c : ℤ) :
    (checkMonitor HttpMethod.get E L now (ProbeOutcome.response c t)).status
      = if c = E ∧ t ≤ L then MonitorStatus.up
        else if c = E then MonitorStatus.degraded
        else MonitorStatus.down := rfl

/-- The POST-path status of `_check_monitor`: latency plays no role. -/
theorem checkMonitor_post_status (E : ℤ) (L now t : ℚ) (c : ℤ) :
    (checkMonitor HttpMethod.post E L now (ProbeOutcome.response c t)).status
      = if c = E then MonitorStatus.up else MonitorStatus.down := rfl

/-- C2 is false as stated: the classification is not uniform across
request paths.  With expected status 200 and expected max latency 5000 ms,
a POST response with matching code 200 but latency 6000 ms — strictly
above the bound — is classified UP, where the claimed policy requires
DEGRADED. -/
theorem checkMonitor_post_counterexample :
    (checkMonitor HttpMethod.post 200 5000 0 (ProbeOutcome.response 200 6000)).status
        = MonitorStatus.up
    ∧ (5000 : ℚ) < 6000
    ∧ MonitorStatus.up ≠ MonitorStatus.degraded := by
  refine ⟨rfl, by norm_num, by decide⟩

/-- C2 (amended): the claimed policy holds on the GET path — UP iff the
code matches and the latency is within the bound, DEGRADED iff the code
matches and the latency exceeds the bound, DOWN iff the code differs —
while the POST path ignores latency entirely (UP iff the code matches,
DOWN otherwise); on either path a timeout or a transport exception yields
a DOWN result with no latency and no status code. -/
theorem checkMonitor_classification (E : ℤ) (L now t : ℚ) (c : ℤ) (msg : String) :
    ((checkMonitor HttpMethod.get E L now (ProbeOutcome.response c t)).status
        = MonitorStatus.up ↔ c = E ∧ t ≤ L)
    ∧ ((checkMonitor HttpMethod.get E L now (ProbeOutcome.response c t)).status
        = MonitorStatus.degraded ↔ c = E ∧ L < t)
    ∧ ((checkMonitor HttpMethod.get E L now (ProbeOutcome.response c t)).status
        = MonitorStatus.down ↔ c ≠ E)
    ∧ ((checkMonitor HttpMethod.post E L now (ProbeOutcome.response c t)).status
        = MonitorStatus.up ↔ c = E)
    ∧ ((checkMonitor HttpMethod.post E L now (ProbeOutcome.response c t)).status
        = MonitorStatus.down ↔ c ≠ E)
    ∧ (∀ m : HttpMethod,
        (checkMonitor m E L now ProbeOutcome.timeout).status = MonitorStatus.down
        ∧ (checkMonitor m E L now ProbeOutcome.timeout).response_time = none
        ∧ (checkMonitor m E L now ProbeOutcome.timeout).status_code = none)
    ∧ (∀ m : HttpMethod,
        (checkMonitor m E L now (ProbeOutcome.transportError msg)).status
          = MonitorStatus.down
        ∧ (checkMonitor m E L now (ProbeOutcome.transportError msg)).response_time
          = none
        ∧ (checkMonitor m E L now (ProbeOutcome.transportError msg)).status_code
          = none) := by
  refine ⟨?_, ?_, ?_, ?_, ?_,
    fun m => ⟨rfl, rfl, rfl⟩, fun m => ⟨rfl, rfl, rfl⟩⟩
  · rw [checkMonitor_get_status]
    split_ifs with h1 h2 <;> simp_all
  · rw [checkMonitor_get_status]
    split_ifs with h1 h2 <;> simp_all
  · rw [checkMonitor_get_status]
    split_ifs with h1 h2 <;> simp_all
  · rw [checkMonitor_post_status]
    split_ifs with h1 <;> simp_all
  · rw [checkMonitor_post_status]
    split_ifs with h1 <;> simp_all

/-! ## C3 — windowed uptime percentage -/

/-- The trailing window of `_calculate_uptime_percentage`: the stored
results of the monitor (a monitor with no stored history reads as the
empty history) restricted to `timestamp >= start_time`. -/
def uptimeWindow (results : ResultsMap) (monitor_name period : String)
    (now : ℚ) : List MonitorResult :=
  ((results.lookup monitor_name).getD []).filter
    (fun r => periodStart now period ≤ r.timestamp)

/-- C3: over any evaluation window — including a monitor with no recorded
results at all — the computed uptime percentage is 100 when the window is
empty, and `K / N * 100` when the window holds `N` results of which `K`
are UP. -/
theorem uptime_percentage_spec (results : ResultsMap) (name period : String)
    (now : ℚ) :
    (uptimeWindow results name period now = [] →
      calculateUptimePercentage results name period now = 100)
    ∧ (uptimeWindow results name period now ≠ [] →
      calculateUptimePercentage results name period now
        = ((uptimeWindow results name period now).countP
            (fun r => r.status = MonitorStatus.up) : ℚ)
          / ((uptimeWindow results name period now).length : ℚ) * 100) := by
  unfold uptimeWindow calculateUptimePercentage
  cases h : results.lookup name with
  | none => simp
  | some rs =>
    simp only [Option.getD_some]
    constructor
    · intro he
      simp [he]
    · intro hne
      rw [if_neg (by simpa [List.isEmpty_iff] using hne)]

/-- Witness for C3: a nonempty window (the `api` monitor with one UP
result in the trailing month) and an empty one (no stored history at
all). -/
theorem uptime_percentage_spec_witness :
    uptimeWindow exResultsMap apiName monthlyPeriod 0 ≠ []
    ∧ calculateUptimePercentage exResultsMap apiName monthlyPeriod 0
        = ((uptimeWindow exResultsMap apiName monthlyPeriod 0).countP
            (fun r => r.status = MonitorStatus.up) : ℚ)
          / ((uptimeWindow exResultsMap apiName monthlyPeriod 0).length : ℚ)
          * 100
    ∧ uptimeWindow [] apiName monthlyPeriod 0 = []
    ∧ calculateUptimePercentage [] apiName monthlyPeriod 0 = 100 := by
  have hwin : uptimeWindow exResultsMap apiName monthlyPeriod 0 = [upResult] := by
    norm_num [uptimeWindow, exResultsMap, apiName, monthlyPeriod, periodStart,
      upResult, List.lookup]
    decide
  have hne : uptimeWindow exResultsMap apiName monthlyPeriod 0 ≠ [] := by
    rw [hwin]
    exact List.cons_ne_nil upResult []
  exact ⟨hne, (uptime_percentage_spec exResultsMap apiName monthlyPeriod 0).2 hne,
    rfl, (uptime_percentage_spec [] apiName monthlyPeriod 0).1 rfl⟩

/-! ## C4 — latency SLA violation boundary -/

/-- The uptime block never emits a `response_time`-typed violation nor a
WARNING alert (its alert is EMERGENCY). -/
theorem uptimeCheck_no_latency_output (uptimeTh : SLAThreshold)
    (results : ResultsMap) (name : String) (r : MonitorResult) (now : ℕ)
    (nowTime : ℚ) :
    (uptimeCheck uptimeTh results name r now nowTime).1.countP
        (fun v => v.sla_type = "response_time") = 0
    ∧ (uptimeCheck uptimeTh results name r now nowTime).2.countP
        (fun a => a.severity = AlertSeverity.warning) = 0 := by
  simp only [uptimeCheck]
  split_ifs <;> simp

/-- Exact violation/alert counts of the response-time block for a result
with a present, nonzero latency. -/
theorem latencyCheck_count (respTh : SLAThreshold) (name : String)
    (r : MonitorResult) (now : ℕ) (t : ℚ) (ht : r.response_time = some t)
    (ht0 : t ≠ 0) :
    (latencyCheck respTh name r now).1.countP
        (fun v => v.sla_type = "response_time")
      = (if respTh.violation_threshold < t then 1 else 0)
    ∧ (latencyCheck respTh name r now).2.countP
        (fun a => a.severity = AlertSeverity.warning)
      = (if respTh.violation_threshold < t then 1 else 0) := by
  simp only [latencyCheck, ht]
  rw [if_neg ht0]
  split_ifs with h <;> simp

/-- C4: on a result whose latency is present (the pipeline's truthiness
test also requires it to be nonzero, see C10), exactly one latency
violation and exactly one WARNING alert are emitted when the latency is
strictly above the `api_response_time` violation threshold, and none
otherwise — in particular none at the boundary `latency = threshold`. -/
theorem latency_violation_iff (uptimeTh respTh : SLAThreshold)
    (results : ResultsMap) (name : String) (r : MonitorResult) (now : ℕ)
    (nowTime : ℚ) (t : ℚ) (ht : r.response_time = some t) (ht0 : t ≠ 0) :
    ((checkSLAViolations uptimeTh respTh results name r now nowTime).1.countP
        (fun v => v.sla_type = "response_time")
      = if respTh.violation_threshold < t then 1 else 0)
    ∧ ((checkSLAViolations uptimeTh respTh results name r now nowTime).2.countP
        (fun a => a.severity = AlertSeverity.warning)
      = if respTh.violation_threshold < t then 1 else 0) := by
  have hu := uptimeCheck_no_latency_output uptimeTh results name r now nowTime
  have hl := latencyCheck_count respTh name r now t ht ht0
  unfold checkSLAViolations
  simp only [List.countP_append, hu.1, hu.2, hl.1, hl.2, Nat.zero_add]
  exact ⟨trivial, trivial⟩

/-- Witness for C4: the default thresholds and a 150 ms latency, below the
500 ms violation threshold — no violation, no WARNING alert. -/
theorem latency_violation_iff_witness :
    upResult.response_time = some 150 ∧ (150 : ℚ) ≠ 0
    ∧ ((checkSLAViolations defaultUptimeThreshold defaultResponseTimeThreshold
          exResultsMap apiName upResult 0 0).1.countP
        (fun v => v.sla_type = "response_time")
      = if defaultResponseTimeThreshold.violation_threshold < (150 : ℚ)
        then 1 else 0)
    ∧ ((checkSLAViolations defaultUptimeThreshold defaultResponseTimeThreshold
          exResultsMap apiName upResult 0 0).2.countP
        (fun a => a.severity = AlertSeverity.warning)
      = if defaultResponseTimeThreshold.violation_threshold < (150 : ℚ)
        then 1 else 0) := by
  have h := latency_violation_iff defaultUptimeThreshold
    defaultResponseTimeThreshold exResultsMap apiName upResult 0 0 150 rfl
    (by norm_num)
  exact ⟨rfl, by norm_num, h.1, h.2⟩

/-! ## C9 — counter balance -/

/-- The uptime counters written by one `_update_statistics` call. -/
theorem updateStatistics_counters (s : UptimeStats × PerformanceStats)
    (r : MonitorResult) :
    (updateStatistics s r).1.total_checks = s.1.total_checks + 1
    ∧ (updateStatistics s r).1.successful_checks
        = s.1.successful_checks + (if r.status = MonitorStatus.up then 1 else 0)
    ∧ (updateStatistics s r).1.failed_checks
        = s.1.failed_checks + (if r.status = MonitorStatus.up then 0 else 1) :=
  ⟨rfl, rfl, rfl⟩

/-- The uptime counters after folding any result list from any starting
state. -/
theorem statsFold_counters (rs : List MonitorResult)
    (s : UptimeStats × PerformanceStats) :
    (rs.foldl updateStatistics s).1.total_checks
        = s.1.total_checks + rs.length
    ∧ (rs.foldl updateStatistics s).1.successful_checks
        = s.1.successful_checks
          + rs.countP (fun r => r.status = MonitorStatus.up)
    ∧ (rs.foldl updateStatistics s).1.successful_checks
          + (rs.foldl updateStatistics s).1.failed_checks
        = s.1.successful_checks + s.1.failed_checks + rs.length := by
  induction rs generalizing s with
  | nil => simp
  | cons r rest ih =>
    obtain ⟨h1, h2, h3⟩ := ih (updateStatistics s r)
    obtain ⟨g1, g2, g3⟩ := updateStatistics_counters s r
    refine ⟨?_, ?_, ?_⟩
    · simp only [List.foldl_cons, List.length_cons, h1, g1]
      omega
    · simp only [List.foldl_cons, List.countP_cons, h2, g2]
      by_cases h : r.status = MonitorStatus.up <;> simp [h] <;> omega
    · simp only [List.foldl_cons, List.length_cons, h3, g2, g3]
      by_cases h : r.status = MonitorStatus.up <;> simp [h] <;> omega

/-- C9: after processing any sequence of results, the per-monitor
counters satisfy `total = successful + failed`, where the total is the
number of processed results and a result counts as successful exactly
when its status is UP — so every other status (DEGRADED and MAINTENANCE
included) lands in `failed_checks`. -/
theorem counters_balance (rs : List MonitorResult) :
    (statsFold rs).1.total_checks
        = (statsFold rs).1.successful_checks + (statsFold rs).1.failed_checks
    ∧ (statsFold rs).1.total_checks = rs.length
    ∧ (statsFold rs).1.successful_checks
        = rs.countP (fun r => r.status = MonitorStatus.up) := by
  obtain ⟨h1, h2, h3⟩ :=
    statsFold_counters rs (initUptimeStats, initPerformanceStats)
  have e1 : (initUptimeStats, initPerformanceStats).1.total_checks = 0 := rfl
  have e2 : (initUptimeStats, initPerformanceStats).1.successful_checks = 0 := rfl
  have e3 : (initUptimeStats, initPerformanceStats).1.failed_checks = 0 := rfl
  rw [e1] at h1
  rw [e2] at h2
  rw [e2, e3] at h3
  unfold statsFold
  omega

/-! ## C10 — zero latency treated as absent -/

/-- C10: a result whose latency is exactly `0.0` is processed by
`_check_sla_violations` and `_update_statistics` identically to the same
result with no latency at all — the guard `if result.response_time:` is a
Python truthiness test, and `0.0` is falsy. -/
theorem zero_latency_treated_as_absent (ts : ℚ) (st : MonitorStatus)
    (code : Option ℤ) (err : Option String) (am : List (String × ℚ))
    (uptimeTh respTh : SLAThreshold) (results : ResultsMap) (name : String)
    (now : ℕ) (nowTime : ℚ) (s : UptimeStats × PerformanceStats) :
    checkSLAViolations uptimeTh respTh results name
        ⟨ts, st, some 0, code, err, am⟩ now nowTime
      = checkSLAViolations uptimeTh respTh results name
        ⟨ts, st, none, code, err, am⟩ now nowTime
    ∧ updateStatistics s ⟨ts, st, some 0, code, err, am⟩
      = updateStatistics s ⟨ts, st, none, code, err, am⟩ := by
  constructor
  · unfold checkSLAViolations latencyCheck uptimeCheck
    simp
  · unfold updateStatistics
    simp

/-! ## C7 — alert dispatch isolates sink failures -/

/-- The dispatch loop of `_send_alert` records exactly one outcome per
configured channel, in order. -/
theorem sendAlert_eq_map (channels : List AlertChannel) (a : AlertEvent) :
    sendAlert channels a = channels.map (dispatchChannel a) := by
  suffices h : ∀ acc,
      channels.foldl (fun acc ch => acc ++ [dispatchChannel a ch]) acc
        = acc ++ channels.map (dispatchChannel a) by
    simpa using h []
  induction channels with
  | nil => intro acc; simp
  | cons c rest ih => intro acc; simp [ih]

/-- C7: every configured sink is invoked independently — the dispatch
outcome list is the pointwise image of the channel list, one outcome per
channel, and the outcomes recorded for the channels around a failing (or
otherwise arbitrary) channel are exactly those of dispatching to them
alone; the loop body catches a sink's exception (`DispatchOutcome.failed`)
instead of propagating it, so the call always returns with all channels
visited. -/
theorem alert_dispatch_isolation (channels : List AlertChannel)
    (a : AlertEvent) :
    sendAlert channels a = channels.map (dispatchChannel a)
    ∧ (sendAlert channels a).length = channels.length
    ∧ (∀ pre c post,
        sendAlert (pre ++ c :: post) a
          = sendAlert pre a ++ dispatchChannel a c :: sendAlert post a) := by
  refine ⟨sendAlert_eq_map channels a, ?_, ?_⟩
  · rw [sendAlert_eq_map]
    exact List.length_map channels (dispatchChannel a)
  · intro pre c post
    simp [sendAlert_eq_map]

/-! ## C1 — incident state machine transitions -/

/-- A concrete open incident of the `api` monitor. -/
def exIncident : Incident :=
  { incident_id := (100, apiName), monitor_name := apiName, start_time := 10
    status := MonitorStatus.down, error_message := none, alert_sent := true }

/-- C1 is false as stated: a MAINTENANCE result has non-UP status, yet in
the Clear state it opens no incident, and in the Open state it resolves
the incident exactly as an UP result would. -/
theorem maintenance_counterexample :
    maintenanceResult.status ≠ MonitorStatus.up
    ∧ (incidentStep none apiName maintenanceResult 0).1 = none
    ∧ (incidentStep (some exIncident) apiName maintenanceResult 0).1 = none := by
  refine ⟨by decide, rfl, rfl⟩

/-- C1 (amended): the per-monitor incident state is Clear after a step
exactly when the processed result's status is UP or MAINTENANCE, and Open
exactly when it is DOWN or DEGRADED — so Clear→Open fires exactly on
DOWN/DEGRADED and Open→Clear exactly on UP/MAINTENANCE; in particular any
result sequence ending in an UP result leaves no open incident. -/
theorem incident_transitions (cur : Option Incident) (name : String)
    (rs : List (MonitorResult × ℕ)) (r : MonitorResult) (now : ℕ) :
    ((incidentStep cur name r now).1 = none
      ↔ (r.status = MonitorStatus.up ∨ r.status = MonitorStatus.maintenance))
    ∧ (r.status = MonitorStatus.up →
        incidentFold cur name (rs ++ [(r, now)]) = none) := by
  have hstep : ∀ c : Option Incident,
      (incidentStep c name r now).1 = none
        ↔ (r.status = MonitorStatus.up
            ∨ r.status = MonitorStatus.maintenance) := by
    intro c
    unfold incidentStep handleIncident resolveIncident
    cases hs : r.status <;> cases c <;> simp [hs]
  refine ⟨hstep cur, fun hup => ?_⟩
  unfold incidentFold
  rw [List.foldl_append]
  simp only [List.foldl_cons, List.foldl_nil]
  exact (hstep _).mpr (Or.inl hup)

/-- Witness for C1: opening on a DOWN result and then processing an UP
result ends with no open incident. -/
theorem incident_transitions_witness :
    upResult.status = MonitorStatus.up
    ∧ incidentFold none apiName [(downResult, 100), (upResult, 101)] = none := by
  refine ⟨rfl, ?_⟩
  exact (incident_transitions none apiName [(downResult, 100)] upResult 101).2 rfl

/-! ## C6 — flapping and incident identity -/

/-- C6 is false as stated: resolving and reopening within the same clock
second yields a fresh incident whose identity equals the previous one —
`int(time.time())` truncates to the same second and the monitor name is
the same, so the formatted identifier `INC_{t}_{name}` coincides. -/
theorem incident_id_collision_counterexample :
    (incidentStep none apiName downResult 100).1.map (fun i => i.incident_id)
        = some (100, apiName)
    ∧ incidentFold none apiName [(downResult, 100), (upResult, 100)] = none
    ∧ (incidentStep
          (incidentFold none apiName [(downResult, 100), (upResult, 100)])
          apiName downResult2 100).1.map (fun i => i.incident_id)
        = some (100, apiName) := by
  refine ⟨rfl, rfl, rfl⟩

/-- Opening a fresh incident from the Clear state on a DOWN/DEGRADED
result yields exactly the new-incident record of `_handle_incident`. -/
theorem incidentStep_opens (name : String) (r : MonitorResult) (t : ℕ)
    (h : r.status = MonitorStatus.down ∨ r.status = MonitorStatus.degraded) :
    (incidentStep none name r t).1 = some
      { incident_id := (t, name), monitor_name := name
        start_time := r.timestamp, status := r.status
        error_message := r.error_message, alert_sent := true } := by
  show (if r.status = MonitorStatus.down ∨ r.status = MonitorStatus.degraded
        then handleIncident none name r t
        else resolveIncident none name r).1 = _
  rw [if_pos h]
  rfl

/-- C6 (amended): flapping after a resolution always creates a brand-new
incident record (incidents are never reopened: the reopened state carries
the new result's start time), and the new identity `(t2, name)` differs
from the previous `(t1, name)` exactly when the two openings fall in
different clock seconds; within one second the identities collide. -/
theorem flapping_creates_new_incident (name : String)
    (r1 ru r2 : MonitorResult) (t1 tu t2 : ℕ)
    (h1 : r1.status = MonitorStatus.down ∨ r1.status = MonitorStatus.degraded)
    (hu : ru.status = MonitorStatus.up)
    (h2 : r2.status = MonitorStatus.down ∨ r2.status = MonitorStatus.degraded) :
    ∃ i1 i2 : Incident,
      (incidentStep none name r1 t1).1 = some i1
      ∧ incidentFold none name [(r1, t1), (ru, tu)] = none
      ∧ (incidentStep (incidentFold none name [(r1, t1), (ru, tu)])
            name r2 t2).1 = some i2
      ∧ i2.start_time = r2.timestamp
      ∧ i1.incident_id = (t1, name)
      ∧ i2.incident_id = (t2, name)
      ∧ (t1 ≠ t2 → i1.incident_id ≠ i2.incident_id) := by
  have hresolved : incidentFold none name [(r1, t1), (ru, tu)] = none := by
    unfold incidentFold
    simp only [List.foldl_cons, List.foldl_nil]
    rw [incidentStep_opens name r1 t1 h1]
    show (if ru.status = MonitorStatus.down ∨ ru.status = MonitorStatus.degraded
          then handleIncident _ name ru tu
          else resolveIncident _ name ru).1 = none
    rw [if_neg (by simp [hu])]
    rfl
  refine ⟨{ incident_id := (t1, name), monitor_name := name
            start_time := r1.timestamp, status := r1.status
            error_message := r1.error_message, alert_sent := true },
          { incident_id := (t2, name), monitor_name := name
            start_time := r2.timestamp, status := r2.status
            error_message := r2.error_message, alert_sent := true },
          incidentStep_opens name r1 t1 h1, hresolved, ?_, rfl, rfl, rfl,
          fun hne heq => hne (show t1 = t2 from congrArg Prod.fst heq)⟩
  rw [hresolved]
  exact incidentStep_opens name r2 t2 h2

/-- Witness for C6 at concrete openings in distinct clock seconds. -/
theorem flapping_creates_new_incident_witness :
    (downResult.status = MonitorStatus.down
      ∨ downResult.status = MonitorStatus.degraded)
    ∧ upResult.status = MonitorStatus.up
    ∧ (downResult2.status = MonitorStatus.down
      ∨ downResult2.status = MonitorStatus.degraded)
    ∧ ∃ i1 i2 : Incident,
      (incidentStep none apiName downResult 100).1 = some i1
      ∧ incidentFold none apiName [(downResult, 100), (upResult, 105)] = none
      ∧ (incidentStep
            (incidentFold none apiName [(downResult, 100), (upResult, 105)])
            apiName downResult2 101).1 = some i2
      ∧ i2.start_time = downResult2.timestamp
      ∧ i1.incident_id = (100, apiName)
      ∧ i2.incident_id = (101, apiName)
      ∧ ((100 : ℕ) ≠ 101 → i1.incident_id ≠ i2.incident_id) := by
  exact ⟨Or.inl rfl, rfl, Or.inl rfl,
    flapping_creates_new_incident apiName downResult upResult downResult2
      100 105 101 (Or.inl rfl) rfl (Or.inl rfl)⟩

/-! ## C5 — overall compliance and compensation -/

/-- Per-monitor uptime counters matching `exResultsMap`. -/
def exUptimeStats : List (String × UptimeStats) :=
  [(apiName,
    { total_checks := 1, successful_checks := 1, failed_checks := 0
      last_check := some 20 })]

/-- Performance statistics whose average latency (300 ms) breaks the
200 ms response-time SLA target. -/
def exPerfEntry : PerformanceStats :=
  { response_times := [300], avg_response_time := 300
    min_response_time := some 300, max_response_time := 300 }

/-- Per-monitor performance statistics for the concrete report. -/
def exPerfStats : List (String × PerformanceStats) := [(apiName, exPerfEntry)]

/-- Mapping then testing all is testing the composite on all entries. -/
theorem all_map_comp {α β : Type} (l : List α) (f : α → β) (p : β → Bool) :
    (l.map f).all p = l.all (fun x => p (f x)) := by
  induction l with
  | nil => rfl
  | cons x xs ih => simp [List.all_cons, ih]

/-- `periodStart` on the `monthly` tag is a trailing 30 days. -/
theorem periodStart_monthly_eval (now : ℚ) :
    periodStart now monthlyPeriod = now - 2592000 := by
  unfold periodStart monthlyPeriod
  rw [if_neg (by decide), if_neg (by decide), if_pos rfl]

/-- `_calculate_uptime_percentage` on a monitor with stored history. -/
theorem calculateUptimePercentage_some (results : ResultsMap)
    (name period : String) (now : ℚ) (rs : List MonitorResult)
    (h : results.lookup name = some rs) :
    calculateUptimePercentage results name period now
      = (let windowed := rs.filter (fun r => periodStart now period ≤ r.timestamp)
         if windowed.isEmpty then 100
         else ((windowed.countP (fun r => r.status = MonitorStatus.up) : ℚ) /
            (windowed.length : ℚ)) * 100) := by
  unfold calculateUptimePercentage
  rw [h]

/-- The uptime percentage of the concrete one-UP-result history. -/
theorem exResultsMap_pct :
    calculateUptimePercentage exResultsMap apiName monthlyPeriod 0 = 100 := by
  rw [calculateUptimePercentage_some exResultsMap apiName monthlyPeriod 0
    [upResult] rfl]
  have hcond : periodStart 0 monthlyPeriod ≤ upResult.timestamp := by
    rw [periodStart_monthly_eval]
    norm_num [upResult]
  have hf : [upResult].filter
      (fun r => periodStart 0 monthlyPeriod ≤ r.timestamp) = [upResult] := by
    simp [List.filter, hcond]
  simp only [hf]
  have hcount : [upResult].countP (fun r => r.status = MonitorStatus.up) = 1 := rfl
  simp only [hcount, List.isEmpty_cons, List.length_cons, List.length_nil]
  norm_num

/-- The report generated from the concrete state: perfect uptime, broken
average latency, no recorded violations. -/
def exReport : SLAReport :=
  generateSLAReport [apiName] exResultsMap defaultUptimeThreshold
    defaultResponseTimeThreshold exUptimeStats exPerfStats [] monthlyPeriod 0

/-- C5 is false as stated: with a single monitor whose uptime is compliant
but whose latency is not, the per-monitor latency compliance boolean is
`false`, yet the report's overall compliance flag is `true` — the claimed
AND over all per-monitor compliance booleans (latency included) would be
`false`.  Overall compliance aggregates only the uptime booleans. -/
theorem overall_compliance_counterexample :
    exReport.overall_compliant = true
    ∧ exReport.monitors.map (fun p => p.2.response_time_compliant)
        = [some false] := by
  have hlk : exPerfStats.lookup apiName = some exPerfEntry := rfl
  constructor
  · simp only [exReport, generateSLAReport, List.map_cons, List.map_nil,
      List.all_cons, List.all_nil, hlk, Bool.and_true]
    rw [exResultsMap_pct]
    simp only [decide_eq_true_eq]
    norm_num [defaultUptimeThreshold]
  · simp only [exReport, generateSLAReport, List.map_cons, List.map_nil, hlk]
    norm_num [exPerfEntry, defaultResponseTimeThreshold]

/-- C5 (amended): the report's overall compliance flag is the logical AND
of the per-monitor *uptime* compliance booleans alone — each monitor's
latency compliance boolean is reported but not aggregated — while the
compensation owed is, as claimed, the sum of the compensation rates of
the violations listed in the report, duplicates counted. -/
theorem report_overall_compliance (monitors : List String)
    (results : ResultsMap) (uptimeTh respTh : SLAThreshold)
    (uptime_stats : List (String × UptimeStats))
    (performance_stats : List (String × PerformanceStats))
    (sla_violations : List SLAViolation) (period : String) (now : ℚ) :
    (generateSLAReport monitors results uptimeTh respTh uptime_stats
        performance_stats sla_violations period now).overall_compliant
      = monitors.all (fun name =>
          decide (uptimeTh.target_value
            ≤ calculateUptimePercentage results name period now))
    ∧ (generateSLAReport monitors results uptimeTh respTh uptime_stats
        performance_stats sla_violations period now).compensation_owed
      = ((generateSLAReport monitors results uptimeTh respTh uptime_stats
            performance_stats sla_violations period now).sla_violations.map
          (fun v => v.compensation_rate)).sum := by
  constructor
  · simp only [generateSLAReport]
    rw [all_map_comp]
    congr 1
    funext name
    cases performance_stats.lookup name <;> rfl
  · rfl

/-! ## C8 — statistics store: capacity, average, running min/max -/

/-- The latency samples a result list contributes to the statistics: the
response times that pass the truthiness guard of `_update_statistics`
(present and nonzero). -/
def latencySamples (rs : List MonitorResult) : List ℚ :=
  rs.filterMap (fun r =>
    match r.response_time with
    | none => none
    | some t => if t = 0 then none else some t)

/-- The last `k` entries of a list (`lst[-k:]` in the source). -/
def keepLast (k : ℕ) (l : List ℚ) : List ℚ := l.drop (l.length - k)

/-- One step of the running minimum, `none` standing for the initial
`float('inf')`. -/
def minFold (o : Option ℚ) (t : ℚ) : Option ℚ :=
  some (match o with
        | none => t
        | some m => min m t)

/-- `keepLast` never keeps more than its capacity. -/
theorem keepLast_length_le (k : ℕ) (l : List ℚ) :
    (keepLast k l).length ≤ k := by
  unfold keepLast
  rw [List.length_drop]
  omega

/-- Keeping the last `k`, appending, and keeping the last `k` again is
keeping the last `k` of the whole. -/
theorem keepLast_append (k : ℕ) (xs ys : List ℚ) :
    keepLast k (keepLast k xs ++ ys) = keepLast k (xs ++ ys) := by
  unfold keepLast
  rcases le_or_lt xs.length k with h | h
  · have h0 : xs.length - k = 0 := by omega
    rw [h0, List.drop_zero]
  · have hlen : (xs.drop (xs.length - k)).length = k := by
      rw [List.length_drop]
      omega
    rcases le_or_lt ys.length k with hm | hm
    · have h1 : (xs.drop (xs.length - k) ++ ys).length - k = ys.length := by
        rw [List.length_append, hlen]
        omega
      have h2 : (xs ++ ys).length - k = xs.length - k + ys.length := by
        rw [List.length_append]
        omega
      rw [h1, h2,
        List.drop_append_of_le_length (by rw [hlen]; exact hm),
        List.drop_drop,
        List.drop_append_of_le_length (by omega)]
    · have h1 : (xs.drop (xs.length - k) ++ ys).length - k
          = (xs.drop (xs.length - k)).length + (ys.length - k) := by
        rw [List.length_append, hlen]
        omega
      have h2 : (xs ++ ys).length - k = xs.length + (ys.length - k) := by
        rw [List.length_append]
        omega
      rw [h1, h2, List.drop_append, List.drop_append]

/-- The source's `if len > 1000: keep the last 1000` is `keepLast 1000`:
when the bound is not exceeded the subtraction truncates to zero and
nothing is dropped. -/
theorem truncate_eq_keepLast (l : List ℚ) (t : ℚ) :
    (if 1000 < (l ++ [t]).length
      then (l ++ [t]).drop ((l ++ [t]).length - 1000)
      else l ++ [t])
    = keepLast 1000 (l ++ [t]) := by
  unfold keepLast
  split_ifs with h
  · rfl
  · have h0 : (l ++ [t]).length - 1000 = 0 := by omega
    rw [h0, List.drop_zero]

/-- A result with no latency leaves the performance entry unchanged. -/
theorem updateStatistics_perf_none (s : UptimeStats × PerformanceStats)
    (r : MonitorResult) (hr : r.response_time = none) :
    (updateStatistics s r).2 = s.2 := by
  simp only [updateStatistics, hr]

/-- A result with latency `0.0` leaves the performance entry unchanged. -/
theorem updateStatistics_perf_zero (s : UptimeStats × PerformanceStats)
    (r : MonitorResult) (hr : r.response_time = some 0) :
    (updateStatistics s r).2 = s.2 := by
  simp only [updateStatistics, hr]
  simp

/-- A result with a truthy latency appends it, truncates to the last 1000
samples, recomputes the average over the kept samples and folds the
running min/max. -/
theorem updateStatistics_perf_sample (s : UptimeStats × PerformanceStats)
    (r : MonitorResult) (t : ℚ) (hr : r.response_time = some t)
    (ht : t ≠ 0) :
    (updateStatistics s r).2.response_times
        = keepLast 1000 (s.2.response_times ++ [t])
    ∧ (updateStatistics s r).2.avg_response_time
        = (keepLast 1000 (s.2.response_times ++ [t])).sum /
            ((keepLast 1000 (s.2.response_times ++ [t])).length : ℚ)
    ∧ (updateStatistics s r).2.min_response_time
        = minFold s.2.min_response_time t
    ∧ (updateStatistics s r).2.max_response_time
        = max s.2.max_response_time t := by
  simp only [updateStatistics, hr]
  rw [if_neg ht]
  refine ⟨truncate_eq_keepLast _ _, ?_, rfl, rfl⟩
  rw [truncate_eq_keepLast]

/-- A result with no latency contributes no sample. -/
theorem latencySamples_cons_none (r : MonitorResult)
    (rest : List MonitorResult) (hr : r.response_time = none) :
    latencySamples (r :: rest) = latencySamples rest := by
  simp [latencySamples, List.filterMap_cons, hr]

/-- A result with latency `0.0` contributes no sample. -/
theorem latencySamples_cons_zero (r : MonitorResult)
    (rest : List MonitorResult) (hr : r.response_time = some 0) :
    latencySamples (r :: rest) = latencySamples rest := by
  simp [latencySamples, List.filterMap_cons, hr]

/-- A result with a truthy latency contributes its sample. -/
theorem latencySamples_cons_sample (r : MonitorResult)
    (rest : List MonitorResult) (t : ℚ) (hr : r.response_time = some t)
    (ht : t ≠ 0) :
    latencySamples (r :: rest) = t :: latencySamples rest := by
  simp [latencySamples, List.filterMap_cons, hr, ht]

/-- Sample buffer, running min and running max after folding any result
list from a state whose buffer respects the capacity. -/
theorem statsFold_perf_fields (rs : List MonitorResult)
    (s : UptimeStats × PerformanceStats)
    (hs : s.2.response_times.length ≤ 1000) :
    (rs.foldl updateStatistics s).2.response_times
        = keepLast 1000 (s.2.response_times ++ latencySamples rs)
    ∧ (rs.foldl updateStatistics s).2.min_response_time
        = (latencySamples rs).foldl minFold s.2.min_response_time
    ∧ (rs.foldl updateStatistics s).2.max_response_time
        = (latencySamples rs).foldl max s.2.max_response_time := by
  induction rs generalizing s with
  | nil =>
    have h0 : s.2.response_times.length - 1000 = 0 := by omega
    simp [latencySamples, keepLast, h0]
  | cons r rest ih =>
    cases hr : r.response_time with
    | none =>
      have hskip := updateStatistics_perf_none s r hr
      obtain ⟨b1, b2, b3⟩ := ih (updateStatistics s r) (by rw [hskip]; exact hs)
      rw [List.foldl_cons, latencySamples_cons_none r rest hr]
      rw [hskip] at b1 b2 b3
      exact ⟨b1, b2, b3⟩
    | some t =>
      by_cases ht : t = 0
      · subst ht
        have hskip := updateStatistics_perf_zero s r hr
        obtain ⟨b1, b2, b3⟩ := ih (updateStatistics s r) (by rw [hskip]; exact hs)
        rw [List.foldl_cons, latencySamples_cons_zero r rest hr]
        rw [hskip] at b1 b2 b3
        exact ⟨b1, b2, b3⟩
      · obtain ⟨hbuf, havg, hmin, hmax⟩ :=
          updateStatistics_perf_sample s r t hr ht
        obtain ⟨b1, b2, b3⟩ := ih (updateStatistics s r)
          (by rw [hbuf]; exact keepLast_length_le 1000 _)
        rw [List.foldl_cons, latencySamples_cons_sample r rest t hr ht]
        rw [hbuf] at b1
        rw [hmin] at b2
        rw [hmax] at b3
        refine ⟨?_, ?_, ?_⟩
        · rw [b1, keepLast_append, List.append_assoc]
          rfl
        · rw [b2, List.foldl_cons]
        · rw [b3, List.foldl_cons]

/-- The average times the sample count equals the sample sum, an
invariant of `_update_statistics` (vacuous at `0 * 0 = 0` before any
sample arrives, and exactly "average = mean of the kept samples" once one
has). -/
theorem statsFold_avg (rs : List MonitorResult)
    (s : UptimeStats × PerformanceStats)
    (h : s.2.avg_response_time * (s.2.response_times.length : ℚ)
      = s.2.response_times.sum) :
    (rs.foldl updateStatistics s).2.avg_response_time
        * ((rs.foldl updateStatistics s).2.response_times.length : ℚ)
      = (rs.foldl updateStatistics s).2.response_times.sum := by
  induction rs generalizing s with
  | nil => exact h
  | cons r rest ih =>
    rw [List.foldl_cons]
    apply ih
    cases hr : r.response_time with
    | none => rw [updateStatistics_perf_none s r hr]; exact h
    | some t =>
      by_cases ht : t = 0
      · subst ht
        rw [updateStatistics_perf_zero s r hr]
        exact h
      · obtain ⟨hbuf, havg, hmin, hmax⟩ :=
          updateStatistics_perf_sample s r t hr ht
        rw [hbuf, havg]
        have hne : ((keepLast 1000 (s.2.response_times ++ [t])).length : ℚ) ≠ 0 := by
          have hpos : (keepLast 1000 (s.2.response_times ++ [t])).length ≠ 0 := by
            unfold keepLast
            rw [List.length_drop, List.length_append]
            simp only [List.length_cons, List.length_nil]
            omega
          exact_mod_cast hpos
        exact div_mul_cancel₀ _ hne

/-- C8 (amended): the statistics store keeps at most 1000 latency samples
— exactly the last 1000 truthy samples — and after every update the
average equals the mean of the *retained* samples, while the derived min
and max are *running* extremes over every sample ever recorded, not the
extremes of the retained samples. -/
theorem statistics_store_properties (rs : List MonitorResult) :
    (statsFold rs).2.response_times = keepLast 1000 (latencySamples rs)
    ∧ (statsFold rs).2.response_times.length ≤ 1000
    ∧ (statsFold rs).2.avg_response_time
          * ((statsFold rs).2.response_times.length : ℚ)
        = (statsFold rs).2.response_times.sum
    ∧ (statsFold rs).2.min_response_time
        = (latencySamples rs).foldl minFold none
    ∧ (statsFold rs).2.max_response_time
        = (latencySamples rs).foldl max 0 := by
  obtain ⟨b1, b2, b3⟩ := statsFold_perf_fields rs
    (initUptimeStats, initPerformanceStats) (by simp [initPerformanceStats])
  have havg := statsFold_avg rs (initUptimeStats, initPerformanceStats)
    (by simp [initPerformanceStats])
  unfold statsFold
  have eb : (initUptimeStats, initPerformanceStats).2.response_times = [] := rfl
  have em : (initUptimeStats, initPerformanceStats).2.min_response_time
      = none := rfl
  have ex : (initUptimeStats, initPerformanceStats).2.max_response_time
      = 0 := rfl
  rw [eb, List.nil_append] at b1
  rw [em] at b2
  rw [ex] at b3
  refine ⟨b1, ?_, havg, b2, b3⟩
  rw [b1]
  exact keepLast_length_le 1000 _

/-- A result carrying a 1 ms latency sample. -/
def sampleOneResult : MonitorResult :=
  { timestamp := 1, status := MonitorStatus.up, response_time := some 1
    status_code := some 200, error_message := none, additional_metrics := [] }

/-- A result carrying a 2 ms latency sample. -/
def sampleTwoResult : MonitorResult :=
  { timestamp := 2, status := MonitorStatus.up, response_time := some 2
    status_code := some 200, error_message := none, additional_metrics := [] }

/-- 1001 results: a 1 ms sample followed by 1000 samples of 2 ms, enough
to evict the first sample from the 1000-slot buffer. -/
def overflowInput : List MonitorResult :=
  sampleOneResult :: List.replicate 1000 sampleTwoResult

/-- The samples contributed by `n` copies of the 2 ms result. -/
theorem latencySamples_replicate_two (n : ℕ) :
    latencySamples (List.replicate n sampleTwoResult)
      = List.replicate n (2 : ℚ) := by
  induction n with
  | zero => rfl
  | succ n ih =>
    rw [List.replicate_succ, List.replicate_succ,
      latencySamples_cons_sample sampleTwoResult _ 2 rfl (by norm_num), ih]

/-- A running minimum already at or below every later sample never
moves. -/
theorem minFold_replicate (n : ℕ) (m t : ℚ) (h : m ≤ t) :
    (List.replicate n t).foldl minFold (some m) = some m := by
  induction n with
  | zero => rfl
  | succ n ih =>
    rw [List.replicate_succ, List.foldl_cons]
    have hm : minFold (some m) t = some m := by
      simp [minFold, min_eq_left h]
    rw [hm, ih]

/-- C8 is false as stated: after 1001 samples (one 1 ms, then 1000 times
2 ms) the retained buffer is exactly the thousand 2 ms samples — the 1 ms
sample has been evicted, and no retained sample equals 1 — yet the
derived `min_response_time` is still 1: it is the running minimum over
every sample ever recorded, not the minimum of the retained samples
(which is 2). -/
theorem running_min_counterexample :
    (statsFold overflowInput).2.min_response_time = some 1
    ∧ (statsFold overflowInput).2.response_times
        = List.replicate 1000 (2 : ℚ)
    ∧ (1 : ℚ) ∉ List.replicate 1000 (2 : ℚ) := by
  obtain ⟨b1, b2, b3⟩ := statsFold_perf_fields overflowInput
    (initUptimeStats, initPerformanceStats) (by simp [initPerformanceStats])
  have eb : (initUptimeStats, initPerformanceStats).2.response_times = [] := rfl
  have em : (initUptimeStats, initPerformanceStats).2.min_response_time
      = none := rfl
  have hsamp : latencySamples overflowInput
      = (1 : ℚ) :: List.replicate 1000 2 := by
    unfold overflowInput
    rw [latencySamples_cons_sample sampleOneResult _ 1 rfl (by norm_num),
      latencySamples_replicate_two]
  rw [eb, List.nil_append, hsamp] at b1
  rw [em, hsamp] at b2
  have hk : keepLast 1000 ((1 : ℚ) :: List.replicate 1000 2)
      = List.replicate 1000 (2 : ℚ) := by
    unfold keepLast
    have hlen : ((1 : ℚ) :: List.replicate 1000 2).length - 1000 = 1 := by
      rw [List.length_cons, List.length_replicate]
    rw [hlen, List.drop_one, List.tail_cons]
  have hmin : List.foldl minFold none ((1 : ℚ) :: List.replicate 1000 2)
      = some 1 := by
    rw [List.foldl_cons]
    exact minFold_replicate 1000 1 2 (by norm_num)
  unfold statsFold
  refine ⟨by rw [b2, hmin], by rw [b1, hk], ?_⟩
  intro hmem
  rw [List.mem_replicate] at hmem
  exact absurd hmem.2 (by norm_num)

end UptimeMonitor
